import Mathlib

/-!
# Wild Apricot client: token exchange and paginated contact retrieval

A shallow embedding of `abc.js` (`authenticateWildApricot`, `getAccountId`) and
`test.js` (`getWildApricotContacts`).

The HTTP collaborator (`axios` and the remote service) is not part of the
program.  It is represented by a *script*: the list of outcomes the collaborator
gives to the requests of one call, in the order the requests are issued.  The
requests of one call are issued strictly one after another and each one is
determined by the outcomes before it, so a script describes every deterministic
behaviour of the collaborator.  When the script is used up while the program is
awaiting a response, the run is `pending`: the request has been issued and the
call has not completed.
-/

namespace WildApricot

/-! ## JavaScript values -/

/-- JavaScript values as they arrive from decoded JSON bodies, together with
`undefined`.  Numbers are restricted to the integral ones. -/
inductive JSVal where
  | undefined
  | null
  | bool (b : Bool)
  | num (n : Int)
  | str (s : String)
  | arr (items : List JSVal)
  | obj (fields : List (String × JSVal))

/-- An exception value.  `message` is `error.message`; `response` is
`some d` when `error.response` is present, `d` being `error.response.data`
(an HTTP error status), and `none` when there is no `error.response`
(a transport failure, or an exception raised by the JavaScript runtime). -/
structure JSError where
  message : String
  response : Option JSVal

/-- ToBoolean: the values that count as false are `undefined`, `null`,
`false`, `0` and the empty string. -/
def JSVal.truthy : JSVal → Bool
  | .undefined => false
  | .null => false
  | .bool b => b
  | .num n => n != 0
  | .str s => s != ""
  | .arr _ => true
  | .obj _ => true

/-- The values on which a property read raises: `undefined` and `null`. -/
def JSVal.isNullish : JSVal → Bool
  | .undefined => true
  | .null => true
  | _ => false

/-- The TypeError raised by the runtime for a property read on `undefined` or
`null`, the property name standing between single quotes (`\x27`).  It has no
`response`. -/
def typeError (what : String) (key : String) : JSError :=
  ⟨"Cannot read properties of " ++ what ++ " (reading \x27" ++ key ++ "\x27)", none⟩

/-- The TypeError raised by the runtime when an object cannot be converted to
a string. -/
def cannotConvert : JSError :=
  ⟨"Cannot convert object to primitive value", none⟩

/-- The TypeError raised by the runtime for a call of something that is not a
function. -/
def notAFunction (key : String) : JSError :=
  ⟨key ++ " is not a function", none⟩

/-- Property read `v.key`, for the data property names the program reads
(`access_token`, `Contacts`, `ResultContinuation`, `FirstName`, `LastName`,
`Email`, `Id`, `Name`, `Url`, `error_description`), none of which is defined on
a primitive or on an array: the read raises a TypeError on `undefined` and
`null`, gives the field of an object when it has one, and `undefined`
otherwise. -/
def JSVal.getProp (v : JSVal) (key : String) : Except JSError JSVal :=
  match v with
  | .undefined => .error (typeError "undefined" key)
  | .null => .error (typeError "null" key)
  | .obj fields => .ok ((fields.lookup key).getD .undefined)
  | _ => .ok .undefined

mutual
/-- Whether ToString completes on a value decoded from JSON.  It does on
`undefined`, `null`, booleans, numbers and strings.  On an object it goes
through the property `toString`: the inherited one answers, while an own field
of that name (never a function in decoded JSON) leaves no conversion and a
TypeError is raised.  On an array it goes through `join`, which converts every
element that is not `undefined` or `null`. -/
def JSVal.renders : JSVal → Bool
  | .obj fields => (fields.lookup "toString").isNone
  | .arr items => rendersAll items
  | _ => true
/-- Whether ToString completes on every element of a list. -/
def rendersAll : List JSVal → Bool
  | [] => true
  | x :: xs => x.renders && rendersAll xs
end

/-- One substitution of a template literal: the expression is evaluated and
its value converted to a string.  The completion is the exception of the
evaluation, the TypeError of the conversion, or the value; the text produced is
not computed. -/
def substitution : Except JSError JSVal → Except JSError JSVal
  | .error e => .error e
  | .ok v => if v.renders then .ok v else .error cannotConvert

/-- The expression `a || b`. -/
def JSVal.or (a b : JSVal) : JSVal :=
  if a.truthy then a else b

/-- The expression `xs.concat(v)`: the elements of `v` are appended when `v` is
an array, and `v` itself is appended as one element otherwise. -/
def concat (xs : List JSVal) (v : JSVal) : List JSVal :=
  match v with
  | .arr items => xs ++ items
  | other => xs ++ [other]

/-! ## Requests, responses, console -/

/-- The `Authorization` header.  `basic c` stands for `Basic <base64 of c>`,
`bearer t` for the template `Bearer $(t)`, recorded with the token `t` it was
built from; the conversion of `t` to a string is not part of the record. -/
inductive Authorization where
  | basic (credentials : String)
  | bearer (token : JSVal)

/-- One request handed to `axios`. -/
structure Request where
  method : String
  url : String
  authorization : Authorization
  contentType : Option String
  params : List (String × JSVal)

/-- What `await axios.get/post` does with one request: it yields a response
whose `data` is the decoded body, or raises. -/
inductive HttpResult where
  | success (data : JSVal)
  | failure (error : JSError)

/-- One console call, with its arguments.  A template literal whose evaluation
completed is recorded as the list of its parts in order, not as the string it
produced. -/
inductive LogEvent where
  | log (args : List JSVal)
  | warn (args : List JSVal)
  | error (args : List JSVal)

/-- How a call stands when the script ends: it returned, it raised, or it is
still awaiting the response to the last request it issued. -/
inductive Outcome (α : Type) where
  | returned (value : α)
  | threw (error : JSError)
  | pending

/-- The observable behaviour of one call: how it completed, the requests it
issued in order, the console calls it made in order, and the part of the script
it did not consume. -/
structure Run (α : Type) where
  outcome : Outcome α
  requests : List Request
  console : List LogEvent
  rest : List HttpResult

/-! ## abc.js -/

/-- The token endpoint. -/
def tokenUrl : String := "https://oauth.wildapricot.org/auth/token"

/-- The token request of both files: POST to the token endpoint with a Basic
credential, the form content type, `grant_type` and `scope`. -/
def tokenRequest (credentials : String) : Request :=
  { method := "POST"
    url := tokenUrl
    authorization := .basic credentials
    contentType := some "application/x-www-form-urlencoded"
    params := [("grant_type", .str "client_credentials"), ("scope", .str "auto")] }

/-- Evaluation of `(await axios.post(...)).data.access_token` on the outcome of
the request: the request error, the TypeError of a read on a nullish body, or
the value of the field. -/
def accessTokenOf : HttpResult → Except JSError JSVal
  | .failure e => .error e
  | .success data => data.getProp "access_token"

/-- The warning of the fallback path. -/
def fallbackWarning : LogEvent :=
  .warn [.str "Authentication with client secret failed, trying API key only..."]

/-- Function `authenticateWildApricot(apiKey, clientSecret)` of abc.js. -/
def authenticateWildApricot (apiKey clientSecret : String)
    (script : List HttpResult) : Run JSVal :=
  let first := tokenRequest (apiKey ++ ":" ++ clientSecret)
  match script with
  | [] => ⟨.pending, [first], [], []⟩
  | r :: rest =>
    match accessTokenOf r with
    | .ok token => ⟨.returned token, [first], [], rest⟩
    | .error _ =>
      let second := tokenRequest ("APIKEY:" ++ apiKey)
      match rest with
      | [] => ⟨.pending, [first, second], [fallbackWarning], []⟩
      | r2 :: rest2 =>
        match accessTokenOf r2 with
        | .ok token => ⟨.returned token, [first, second], [fallbackWarning], rest2⟩
        | .error e => ⟨.threw e, [first, second], [fallbackWarning], rest2⟩

/-- The accounts request of `getAccountId`. -/
def accountsRequest (accessToken : JSVal) : Request :=
  { method := "GET"
    url := "https://api.wildapricot.org/v2.2/accounts"
    authorization := .bearer accessToken
    contentType := none
    params := [] }

/-- The console line of one account: the template literal with the
substitutions `account.Id`, `account.Name`, `account.Url`, evaluated and
converted in that order.  The first exception stops it: the TypeError of a
property read on a nullish element, or the TypeError of a value that cannot be
converted to a string. -/
def accountLine (account : JSVal) : Except JSError LogEvent :=
  match substitution (account.getProp "Id"), substitution (account.getProp "Name"),
    substitution (account.getProp "Url") with
  | .ok i, .ok n, .ok u => .ok (.log [.str "ID: ", i, .str ", Name: ", n, .str ", URL: ", u])
  | .error e, _, _ => .error e
  | _, .error e, _ => .error e
  | _, _, .error e => .error e

/-- The loop `xs.forEach(x => console.log(line x))`: the console calls made,
and the exception that stopped the loop if there was one. -/
def forEachLog (line : JSVal → Except JSError LogEvent) :
    List JSVal → List LogEvent × Option JSError
  | [] => ([], none)
  | x :: xs =>
    match line x with
    | .error e => ([], some e)
    | .ok ev => (ev :: (forEachLog line xs).1, (forEachLog line xs).2)

/-- The statements of `getAccountId` after the accounts response arrived:
`console.log`, `response.data.forEach(...)`, `return response.data`. -/
def listAccounts (data : JSVal) : List LogEvent × Except JSError JSVal :=
  let header := LogEvent.log [.str "Available Accounts:"]
  match data with
  | .arr accounts =>
    match forEachLog accountLine accounts with
    | (lines, none) => (header :: lines, .ok data)
    | (lines, some e) => (header :: lines, .error e)
  | .undefined => ([header], .error (typeError "undefined" "forEach"))
  | .null => ([header], .error (typeError "null" "forEach"))
  | _ => ([header], .error (notAFunction "response.data.forEach"))

/-- The expression `error.response?.data?.error_description || error.message`. -/
def errorDescription (error : JSError) : JSVal :=
  let described : JSVal :=
    match error.response with
    | none => .undefined
    | some data =>
      match data.getProp "error_description" with
      | .ok d => d
      | .error _ => .undefined
  described.or (.str error.message)

/-- The console call of the `catch` block of `getAccountId`. -/
def accountsErrorLog (error : JSError) : LogEvent :=
  .error [.str "Error fetching accounts:", errorDescription error]

/-- Function `getAccountId(apiKey, clientSecret)` of abc.js.  The template
of the Authorization header is evaluated before the accounts request is handed
to `axios`: a token that cannot be converted to a string raises there, inside
the `try` block, and no accounts request is issued. -/
def getAccountId (apiKey clientSecret : String) (script : List HttpResult) : Run JSVal :=
  let auth := authenticateWildApricot apiKey clientSecret script
  match auth.outcome with
  | .pending => ⟨.pending, auth.requests, auth.console, auth.rest⟩
  | .threw e => ⟨.threw e, auth.requests, auth.console ++ [accountsErrorLog e], auth.rest⟩
  | .returned accessToken =>
    match substitution (.ok accessToken) with
    | .error e =>
      ⟨.threw e, auth.requests, auth.console ++ [accountsErrorLog e], auth.rest⟩
    | .ok _ =>
      let requests := auth.requests ++ [accountsRequest accessToken]
      match auth.rest with
      | [] => ⟨.pending, requests, auth.console, []⟩
      | .failure e :: rest =>
        ⟨.threw e, requests, auth.console ++ [accountsErrorLog e], rest⟩
      | .success data :: rest =>
        match listAccounts data with
        | (lines, .ok value) => ⟨.returned value, requests, auth.console ++ lines, rest⟩
        | (lines, .error e) =>
          ⟨.threw e, requests, auth.console ++ lines ++ [accountsErrorLog e], rest⟩

/-! ## test.js -/

/-- The contacts request of one iteration, for an access token that can be
converted to a string: the three fixed parameters, and `$continuationToken`
when the token held is truthy. -/
def contactsRequest (accountId : String) (accessToken continuationToken : JSVal) : Request :=
  let params : List (String × JSVal) :=
    [("$async", .bool false), ("$select", .str "FirstName,LastName,Email"),
     ("$filter", .str "Archived eq false")]
  { method := "GET"
    url := "https://api.wildapricot.org/v2.2/accounts/" ++ accountId ++ "/contacts"
    authorization := .bearer accessToken
    contentType := none
    params :=
      if continuationToken.truthy then params ++ [("$continuationToken", continuationToken)]
      else params }

/-- How the `do ... while` loop ended, with the requests it issued and the
part of the script it left. -/
structure LoopRun where
  outcome : Outcome (List JSVal)
  requests : List Request
  rest : List HttpResult

/-- The `do ... while (continuationToken)` loop of `getWildApricotContacts`,
entered with the accumulator `allContacts` and the token `continuationToken`,
for an access token that can be converted to a string. -/
def contactsLoop (accountId : String) (accessToken : JSVal) :
    List HttpResult → List JSVal → JSVal → LoopRun
  | [], _, continuationToken =>
    ⟨.pending, [contactsRequest accountId accessToken continuationToken], []⟩
  | .failure e :: rest, _, continuationToken =>
    ⟨.threw e, [contactsRequest accountId accessToken continuationToken], rest⟩
  | .success contactsData :: rest, allContacts, continuationToken =>
    let request := contactsRequest accountId accessToken continuationToken
    match contactsData.getProp "Contacts", contactsData.getProp "ResultContinuation" with
    | .ok contacts, .ok next =>
      if next.truthy then
        let more := contactsLoop accountId accessToken rest (concat allContacts contacts) next
        ⟨more.outcome, request :: more.requests, more.rest⟩
      else
        ⟨.returned (concat allContacts contacts), [request], rest⟩
    | .error e, _ => ⟨.threw e, [request], rest⟩
    | _, .error e => ⟨.threw e, [request], rest⟩

/-- The console line of one contact: the template literal with the
substitutions `contact.FirstName`, `contact.LastName`, `contact.Email`,
evaluated and converted in that order.  The first exception stops it: the
TypeError of a property read on a nullish element, or the TypeError of a value
that cannot be converted to a string. -/
def contactLine (contact : JSVal) : Except JSError LogEvent :=
  match substitution (contact.getProp "FirstName"), substitution (contact.getProp "LastName"),
    substitution (contact.getProp "Email") with
  | .ok f, .ok l, .ok m => .ok (.log [f, .str " ", l, .str " - ", m])
  | .error e, _, _ => .error e
  | _, .error e, _ => .error e
  | _, _, .error e => .error e

/-- The console call of the `catch` block of `getWildApricotContacts`:
`error.response ? error.response.data : error.message`. -/
def contactsErrorLog (error : JSError) : LogEvent :=
  .error [.str "Error fetching contacts:",
    match error.response with
    | some data => data
    | none => .str error.message]

/-- The statements of `getWildApricotContacts` after the loop: the count line,
the line of each contact, `return allContacts`. -/
def reportContacts (allContacts : List JSVal) : List LogEvent × Except JSError (List JSVal) :=
  let header :=
    LogEvent.log [.str "Retrieved ", .num allContacts.length, .str " contacts:"]
  match forEachLog contactLine allContacts with
  | (lines, none) => (header :: lines, .ok allContacts)
  | (lines, some e) => (header :: lines, .error e)

/-- Function `getWildApricotContacts(apiKey, accountId)` of test.js. -/
def getWildApricotContacts (apiKey accountId : String)
    (script : List HttpResult) : Run (List JSVal) :=
  let auth := tokenRequest ("APIKEY:" ++ apiKey)
  match script with
  | [] => ⟨.pending, [auth], [], []⟩
  | r :: rest =>
    match accessTokenOf r with
    | .error e => ⟨.threw e, [auth], [contactsErrorLog e], rest⟩
    | .ok accessToken =>
      let loop := contactsLoop accountId accessToken rest [] .null
      match loop.outcome with
      | .pending => ⟨.pending, auth :: loop.requests, [], loop.rest⟩
      | .threw e => ⟨.threw e, auth :: loop.requests, [contactsErrorLog e], loop.rest⟩
      | .returned allContacts =>
        match reportContacts allContacts with
        | (lines, .ok value) => ⟨.returned value, auth :: loop.requests, lines, loop.rest⟩
        | (lines, .error e) =>
          ⟨.threw e, auth :: loop.requests, lines ++ [contactsErrorLog e], loop.rest⟩

/-! ## Reading a page body -/

/-- The value of `contactsData.ResultContinuation` for a body on which the read
does not raise, and `undefined` for a nullish body. -/
def continuationOf (contactsData : JSVal) : JSVal :=
  match contactsData.getProp "ResultContinuation" with
  | .ok token => token
  | .error _ => .undefined

/-- The value of `contactsData.Contacts` for a body on which the read does not
raise, and `undefined` for a nullish body. -/
def contactsOf (contactsData : JSVal) : JSVal :=
  match contactsData.getProp "Contacts" with
  | .ok contacts => contacts
  | .error _ => .undefined

/-- The items of a page whose `Contacts` is an array. -/
def itemsOf (contactsData : JSVal) : List JSVal :=
  match contactsOf contactsData with
  | .arr items => items
  | _ => []

/-- Whether `Contacts` of the body is an array. -/
def hasItems (contactsData : JSVal) : Bool :=
  match contactsOf contactsData with
  | .arr _ => true
  | _ => false

/-- The value of `v.key` for a value on which the read does not raise, and
`undefined` for a nullish one. -/
def fieldOf (v : JSVal) (key : String) : JSVal :=
  match v.getProp key with
  | .ok x => x
  | .error _ => .undefined

/-- Whether the report line of an item can be printed: the item is neither
`undefined` nor `null`, and its `FirstName`, `LastName` and `Email` can be
converted to strings. -/
def printable (contact : JSVal) : Bool :=
  !contact.isNullish && (fieldOf contact "FirstName").renders &&
    (fieldOf contact "LastName").renders && (fieldOf contact "Email").renders

/-- Whether the body holds no item collection at all: the body is `undefined`
or `null`, or its `Contacts` is absent or `null`. -/
def lacksContacts (contactsData : JSVal) : Bool :=
  (contactsOf contactsData).isNullish

/-- The accumulator after the bodies `pages` were appended, in order, to
`allContacts`. -/
def gathered (allContacts : List JSVal) (pages : List JSVal) : List JSVal :=
  pages.foldl (fun all d => concat all (contactsOf d)) allContacts

/-- The continuation token held after the bodies `pages`, `held` being the one
held before them. -/
def heldAfter (held : JSVal) (pages : List JSVal) : JSVal :=
  pages.foldl (fun _ d => continuationOf d) held

/-- The tokens held at the requests that fetched the bodies `pages`, `held`
being the one held at the first of them. -/
def heldAt (held : JSVal) : List JSVal → List JSVal
  | [] => []
  | d :: ds => held :: heldAt (continuationOf d) ds

/-- Page A of the end-to-end scenario: one contact and the continuation
token `CT1`. -/
def scenarioPageA : JSVal :=
  .obj [("Contacts", .arr [.obj [("FirstName", .str "A"), ("LastName", .str "B"),
      ("Email", .str "a@b.com")]]),
    ("ResultContinuation", .str "CT1")]

/-- Page B of the end-to-end scenario: one contact and no continuation
token. -/
def scenarioPageB : JSVal :=
  .obj [("Contacts", .arr [.obj [("FirstName", .str "C"), ("LastName", .str "D"),
      ("Email", .str "c@d.com")]]),
    ("ResultContinuation", .null)]

/-! ## authenticateWildApricot -/

/-- C3: when the first token request succeeds with a body whose `access_token`
is a non-empty (truthy) value, the call returns that value, the only request
issued is the one with the credential `apiKey:clientSecret`, nothing is written
to the console, and the rest of the script is left untouched. -/
theorem authenticate_primary_success (apiKey clientSecret : String) (body token : JSVal)
    (rest : List HttpResult)
    (hbody : body.getProp "access_token" = .ok token) (htoken : token.truthy = true) :
    (authenticateWildApricot apiKey clientSecret (.success body :: rest)).outcome
        = .returned token ∧
      token.truthy = true ∧
      (authenticateWildApricot apiKey clientSecret (.success body :: rest)).requests
        = [tokenRequest (apiKey ++ ":" ++ clientSecret)] ∧
      (authenticateWildApricot apiKey clientSecret (.success body :: rest)).console = [] ∧
      (authenticateWildApricot apiKey clientSecret (.success body :: rest)).rest = rest := by
  simp [authenticateWildApricot, accessTokenOf, hbody, htoken]

/-- Witness of C3: the body carries the token `T1`. -/
theorem authenticate_primary_success_witness :
    (authenticateWildApricot "key" "secret"
        [.success (.obj [("access_token", .str "T1")])]).outcome = .returned (.str "T1") ∧
      (JSVal.str "T1").truthy = true ∧
      (authenticateWildApricot "key" "secret"
        [.success (.obj [("access_token", .str "T1")])]).requests
        = [tokenRequest ("key" ++ ":" ++ "secret")] ∧
      (authenticateWildApricot "key" "secret"
        [.success (.obj [("access_token", .str "T1")])]).console = [] ∧
      (authenticateWildApricot "key" "secret"
        [.success (.obj [("access_token", .str "T1")])]).rest = [] :=
  authenticate_primary_success "key" "secret" (.obj [("access_token", .str "T1")]) (.str "T1") []
    rfl rfl

/-- C4: when the first token request raises and the fallback request succeeds
with a body from which `access_token` can be read, the call returns that
`access_token`, the console holds exactly the one fallback warning, and exactly
two token requests were issued: the one with `apiKey:clientSecret`, then the one
with `APIKEY:apiKey`. -/
theorem authenticate_fallback_success (apiKey clientSecret : String) (e : JSError)
    (body token : JSVal) (rest : List HttpResult)
    (hbody : body.getProp "access_token" = .ok token) :
    (authenticateWildApricot apiKey clientSecret (.failure e :: .success body :: rest)).outcome
        = .returned token ∧
      (authenticateWildApricot apiKey clientSecret (.failure e :: .success body :: rest)).console
        = [fallbackWarning] ∧
      (authenticateWildApricot apiKey clientSecret (.failure e :: .success body :: rest)).requests
        = [tokenRequest (apiKey ++ ":" ++ clientSecret), tokenRequest ("APIKEY:" ++ apiKey)] ∧
      (authenticateWildApricot apiKey clientSecret (.failure e :: .success body :: rest)).rest
        = rest := by
  simp [authenticateWildApricot, accessTokenOf, hbody]

/-- Witness of C4: a transport failure, then a body carrying the token `T2`. -/
theorem authenticate_fallback_success_witness :
    (authenticateWildApricot "key" "secret"
        [.failure ⟨"Network Error", none⟩,
         .success (.obj [("access_token", .str "T2")])]).outcome = .returned (.str "T2") ∧
      (authenticateWildApricot "key" "secret"
        [.failure ⟨"Network Error", none⟩,
         .success (.obj [("access_token", .str "T2")])]).console = [fallbackWarning] ∧
      (authenticateWildApricot "key" "secret"
        [.failure ⟨"Network Error", none⟩,
         .success (.obj [("access_token", .str "T2")])]).requests
        = [tokenRequest ("key" ++ ":" ++ "secret"), tokenRequest ("APIKEY:" ++ "key")] ∧
      (authenticateWildApricot "key" "secret"
        [.failure ⟨"Network Error", none⟩,
         .success (.obj [("access_token", .str "T2")])]).rest = [] :=
  authenticate_fallback_success "key" "secret" ⟨"Network Error", none⟩
    (.obj [("access_token", .str "T2")]) (.str "T2") [] rfl

/-- C5: when the first attempt and the fallback attempt both fail (the request
raises, or `access_token` cannot be read from the body), the call returns no
token: it raises the error of the fallback attempt, whatever the error of the
first attempt was, after exactly two requests and one warning. -/
theorem authenticate_both_fail (apiKey clientSecret : String) (r1 r2 : HttpResult)
    (e1 e2 : JSError) (rest : List HttpResult)
    (h1 : accessTokenOf r1 = .error e1) (h2 : accessTokenOf r2 = .error e2) :
    (authenticateWildApricot apiKey clientSecret (r1 :: r2 :: rest)).outcome = .threw e2 ∧
      (∀ token, (authenticateWildApricot apiKey clientSecret (r1 :: r2 :: rest)).outcome
        ≠ .returned token) ∧
      (authenticateWildApricot apiKey clientSecret (r1 :: r2 :: rest)).requests
        = [tokenRequest (apiKey ++ ":" ++ clientSecret), tokenRequest ("APIKEY:" ++ apiKey)] ∧
      (authenticateWildApricot apiKey clientSecret (r1 :: r2 :: rest)).console
        = [fallbackWarning] := by
  simp [authenticateWildApricot, h1, h2]

/-- Witness of C5: a transport failure, then a rejection with status 401. -/
theorem authenticate_both_fail_witness :
    (authenticateWildApricot "key" "secret"
        [.failure ⟨"Network Error", none⟩,
         .failure ⟨"Request failed with status code 401", some (.obj [])⟩]).outcome
        = .threw ⟨"Request failed with status code 401", some (.obj [])⟩ ∧
      (∀ token, (authenticateWildApricot "key" "secret"
        [.failure ⟨"Network Error", none⟩,
         .failure ⟨"Request failed with status code 401", some (.obj [])⟩]).outcome
        ≠ .returned token) ∧
      (authenticateWildApricot "key" "secret"
        [.failure ⟨"Network Error", none⟩,
         .failure ⟨"Request failed with status code 401", some (.obj [])⟩]).requests
        = [tokenRequest ("key" ++ ":" ++ "secret"), tokenRequest ("APIKEY:" ++ "key")] ∧
      (authenticateWildApricot "key" "secret"
        [.failure ⟨"Network Error", none⟩,
         .failure ⟨"Request failed with status code 401", some (.obj [])⟩]).console
        = [fallbackWarning] :=
  authenticate_both_fail "key" "secret" (.failure ⟨"Network Error", none⟩)
    (.failure ⟨"Request failed with status code 401", some (.obj [])⟩)
    ⟨"Network Error", none⟩ ⟨"Request failed with status code 401", some (.obj [])⟩ [] rfl rfl

/-- C6, as stated, fails: a first response whose body is the object without
fields makes the call return `undefined` after one request, although a
fallback response carrying a token was available; and the same body as the
fallback response makes the call return `undefined` instead of raising. -/
theorem authenticate_missing_token_counterexample :
    (authenticateWildApricot "key" "secret"
        [.success (.obj []), .success (.obj [("access_token", .str "T2")])]).outcome
        = .returned .undefined ∧
      (authenticateWildApricot "key" "secret"
        [.success (.obj []), .success (.obj [("access_token", .str "T2")])]).requests
        = [tokenRequest "key:secret"] ∧
      (authenticateWildApricot "key" "secret"
        [.failure ⟨"Network Error", none⟩, .success (.obj [])]).outcome
        = .returned .undefined :=
  ⟨rfl, rfl, rfl⟩

/-- C6, amended: a token response that arrives with a body that has no
`access_token` (the read gives `undefined`) is not a failure of its attempt.
As the first response it makes the call return `undefined` with no fallback
request and no warning; as the fallback response it makes the call return
`undefined` with no error raised. -/
theorem authenticate_missing_token (apiKey clientSecret : String) (body : JSVal)
    (e : JSError) (rest : List HttpResult)
    (hbody : body.getProp "access_token" = .ok .undefined) :
    ((authenticateWildApricot apiKey clientSecret (.success body :: rest)).outcome
        = .returned .undefined ∧
      (authenticateWildApricot apiKey clientSecret (.success body :: rest)).requests
        = [tokenRequest (apiKey ++ ":" ++ clientSecret)] ∧
      (authenticateWildApricot apiKey clientSecret (.success body :: rest)).console = []) ∧
    ((authenticateWildApricot apiKey clientSecret (.failure e :: .success body :: rest)).outcome
        = .returned .undefined ∧
      (authenticateWildApricot apiKey clientSecret (.failure e :: .success body :: rest)).requests
        = [tokenRequest (apiKey ++ ":" ++ clientSecret), tokenRequest ("APIKEY:" ++ apiKey)] ∧
      (authenticateWildApricot apiKey clientSecret (.failure e :: .success body :: rest)).console
        = [fallbackWarning]) := by
  simp [authenticateWildApricot, accessTokenOf, hbody]

/-- Witness of C6 amended: the body holds an unrelated field only. -/
theorem authenticate_missing_token_witness :
    ((authenticateWildApricot "key" "secret"
        [.success (.obj [("token_type", .str "Bearer")])]).outcome = .returned .undefined ∧
      (authenticateWildApricot "key" "secret"
        [.success (.obj [("token_type", .str "Bearer")])]).requests
        = [tokenRequest ("key" ++ ":" ++ "secret")] ∧
      (authenticateWildApricot "key" "secret"
        [.success (.obj [("token_type", .str "Bearer")])]).console = []) ∧
    ((authenticateWildApricot "key" "secret"
        [.failure ⟨"Network Error", none⟩,
         .success (.obj [("token_type", .str "Bearer")])]).outcome = .returned .undefined ∧
      (authenticateWildApricot "key" "secret"
        [.failure ⟨"Network Error", none⟩,
         .success (.obj [("token_type", .str "Bearer")])]).requests
        = [tokenRequest ("key" ++ ":" ++ "secret"), tokenRequest ("APIKEY:" ++ "key")] ∧
      (authenticateWildApricot "key" "secret"
        [.failure ⟨"Network Error", none⟩,
         .success (.obj [("token_type", .str "Bearer")])]).console = [fallbackWarning]) :=
  authenticate_missing_token "key" "secret" (.obj [("token_type", .str "Bearer")])
    ⟨"Network Error", none⟩ [] rfl

/-! ## getAccountId -/

/-- C9: when authentication returned a token that can be converted to a
string, so that the accounts GET is issued, and that GET then raises `e`, the error thrown to the caller is
`e` itself, unchanged: when the response body of `e` has an `error_description`
`d`, the error thrown carries that body and so exactly `d`, and when there is
no description it carries the transport message of `e`.  Before rethrowing, the
catch block prints `d || message`: the description `d` when it is truthy (a
non-empty string), and the message of `e` when there is no response, when the
body is nullish, or when the description is absent or otherwise not truthy. -/
theorem getAccountId_failure_description (apiKey clientSecret : String)
    (script more : List HttpResult) (accessToken : JSVal) (e : JSError)
    (hauth : (authenticateWildApricot apiKey clientSecret script).outcome
      = .returned accessToken)
    (htoken : accessToken.renders = true)
    (hrest : (authenticateWildApricot apiKey clientSecret script).rest = .failure e :: more) :
    (getAccountId apiKey clientSecret script).outcome = .threw e ∧
      (∀ data d, e.response = some data → data.getProp "error_description" = .ok d →
        ∃ thrown, (getAccountId apiKey clientSecret script).outcome = .threw thrown ∧
          thrown.response = some data ∧ data.getProp "error_description" = .ok d ∧
          thrown.message = e.message) ∧
      (getAccountId apiKey clientSecret script).requests
        = (authenticateWildApricot apiKey clientSecret script).requests
          ++ [accountsRequest accessToken] ∧
      (getAccountId apiKey clientSecret script).console
        = (authenticateWildApricot apiKey clientSecret script).console
          ++ [.error [.str "Error fetching accounts:", errorDescription e]] ∧
      (∀ data d, e.response = some data → data.getProp "error_description" = .ok d →
        d.truthy = true → errorDescription e = d) ∧
      (∀ data d, e.response = some data → data.getProp "error_description" = .ok d →
        d.truthy = false → errorDescription e = .str e.message) ∧
      (∀ data, e.response = some data → data.isNullish = true →
        errorDescription e = .str e.message) ∧
      (e.response = none → errorDescription e = .str e.message) := by
  have hout : (getAccountId apiKey clientSecret script).outcome = .threw e := by
    simp [getAccountId, hauth, hrest, substitution, htoken]
  refine ⟨hout, ?_, ?_, ?_, ?_, ?_, ?_, ?_⟩
  · intro data d hdata hd
    exact ⟨e, hout, hdata, hd, rfl⟩
  · simp [getAccountId, hauth, hrest, substitution, htoken]
  · simp [getAccountId, hauth, hrest, accountsErrorLog, substitution, htoken]
  · intro data d hdata hd htruthy
    simp [errorDescription, hdata, hd, JSVal.or, htruthy]
  · intro data d hdata hd hfalsy
    simp [errorDescription, hdata, hd, JSVal.or, hfalsy]
  · intro data hdata hnull
    cases data with
    | undefined => simp [errorDescription, hdata, JSVal.getProp, JSVal.or, JSVal.truthy]
    | null => simp [errorDescription, hdata, JSVal.getProp, JSVal.or, JSVal.truthy]
    | _ => simp [JSVal.isNullish] at hnull
  · intro hnone
    simp [errorDescription, hnone, JSVal.or, JSVal.truthy]

/-- Witness of C9: authentication succeeds at once and the accounts GET is
rejected with the description `invalid_token`: the error thrown is the request
error, and the description printed is `invalid_token`. -/
theorem getAccountId_failure_description_witness :
    (getAccountId "key" "secret"
        [.success (.obj [("access_token", .str "T1")]),
         .failure ⟨"Request failed with status code 401",
           some (.obj [("error_description", .str "invalid_token")])⟩]).outcome
      = .threw ⟨"Request failed with status code 401",
           some (.obj [("error_description", .str "invalid_token")])⟩ ∧
    errorDescription ⟨"Request failed with status code 401",
        some (.obj [("error_description", .str "invalid_token")])⟩
      = .str "invalid_token" :=
  ⟨(getAccountId_failure_description "key" "secret"
      [.success (.obj [("access_token", .str "T1")]),
       .failure ⟨"Request failed with status code 401",
         some (.obj [("error_description", .str "invalid_token")])⟩] [] (.str "T1")
      ⟨"Request failed with status code 401",
        some (.obj [("error_description", .str "invalid_token")])⟩ rfl rfl rfl).1,
    (getAccountId_failure_description "key" "secret"
      [.success (.obj [("access_token", .str "T1")]),
       .failure ⟨"Request failed with status code 401",
         some (.obj [("error_description", .str "invalid_token")])⟩] [] (.str "T1")
      ⟨"Request failed with status code 401",
        some (.obj [("error_description", .str "invalid_token")])⟩ rfl rfl rfl).2.2.2.2.1
      (.obj [("error_description", .str "invalid_token")]) (.str "invalid_token") rfl rfl rfl⟩

/-! ## The pagination loop -/

theorem getProp_of_not_nullish (d : JSVal) (key : String) (h : d.isNullish = false) :
    ∃ v, d.getProp key = .ok v := by
  cases d <;> simp [JSVal.isNullish] at h <;> simp [JSVal.getProp]

theorem not_nullish_of_continues (d : JSVal) (h : (continuationOf d).truthy = true) :
    d.isNullish = false := by
  cases d <;> first | rfl | simp [continuationOf, JSVal.getProp, JSVal.truthy] at h

theorem getProp_contacts (d : JSVal) (h : d.isNullish = false) :
    d.getProp "Contacts" = .ok (contactsOf d) := by
  obtain ⟨v, hv⟩ := getProp_of_not_nullish d "Contacts" h
  simp [contactsOf, hv]

theorem getProp_continuation (d : JSVal) (h : d.isNullish = false) :
    d.getProp "ResultContinuation" = .ok (continuationOf d) := by
  obtain ⟨v, hv⟩ := getProp_of_not_nullish d "ResultContinuation" h
  simp [continuationOf, hv]

theorem heldAt_append_heldAfter (held : JSVal) (pages : List JSVal) :
    heldAt held pages ++ [heldAfter held pages] = held :: pages.map continuationOf := by
  induction pages generalizing held with
  | nil => simp [heldAt, heldAfter]
  | cons d ds ih =>
    have := ih (continuationOf d)
    simp [heldAt, heldAfter] at this ⊢
    exact this

theorem gathered_append (acc : List JSVal) (pages more : List JSVal) :
    gathered acc (pages ++ more) = gathered (gathered acc pages) more := by
  simp [gathered, List.foldl_append]

/-- One iteration on a body whose continuation token is truthy: the request is
issued with the token held, the body is appended, and the loop goes on with the
new token. -/
theorem contactsLoop_continue (accountId : String) (accessToken : JSVal) (d : JSVal)
    (tail : List HttpResult) (acc : List JSVal) (held : JSVal)
    (h : (continuationOf d).truthy = true) :
    contactsLoop accountId accessToken (.success d :: tail) acc held =
      ⟨(contactsLoop accountId accessToken tail (concat acc (contactsOf d))
          (continuationOf d)).outcome,
        contactsRequest accountId accessToken held ::
          (contactsLoop accountId accessToken tail (concat acc (contactsOf d))
            (continuationOf d)).requests,
        (contactsLoop accountId accessToken tail (concat acc (contactsOf d))
          (continuationOf d)).rest⟩ := by
  have hn := not_nullish_of_continues d h
  simp [contactsLoop, getProp_contacts d hn, getProp_continuation d hn, h]

/-- The loop over bodies that all carry a truthy continuation token. -/
theorem contactsLoop_pages (accountId : String) (accessToken : JSVal) (pages : List JSVal)
    (tail : List HttpResult) (acc : List JSVal) (held : JSVal)
    (h : ∀ d ∈ pages, (continuationOf d).truthy = true) :
    contactsLoop accountId accessToken (pages.map .success ++ tail) acc held =
      ⟨(contactsLoop accountId accessToken tail (gathered acc pages)
          (heldAfter held pages)).outcome,
        (heldAt held pages).map (contactsRequest accountId accessToken) ++
          (contactsLoop accountId accessToken tail (gathered acc pages)
            (heldAfter held pages)).requests,
        (contactsLoop accountId accessToken tail (gathered acc pages)
          (heldAfter held pages)).rest⟩ := by
  induction pages generalizing acc held with
  | nil => simp [gathered, heldAfter, heldAt]
  | cons d ds ih =>
    have hd : (continuationOf d).truthy = true := h d (by simp)
    have hds : ∀ x ∈ ds, (continuationOf x).truthy = true := fun x hx => h x (by simp [hx])
    simp only [List.map_cons, List.cons_append]
    rw [contactsLoop_continue accountId accessToken d _ acc held hd, ih _ _ hds]
    simp [gathered, heldAfter, heldAt]

/-- The last iteration: a body whose continuation token is not truthy. -/
theorem contactsLoop_last (accountId : String) (accessToken : JSVal) (last : JSVal)
    (rest : List HttpResult) (acc : List JSVal) (held : JSVal)
    (h : (continuationOf last).truthy = false) :
    (contactsLoop accountId accessToken (.success last :: rest) acc held).requests
        = [contactsRequest accountId accessToken held] ∧
      (contactsLoop accountId accessToken (.success last :: rest) acc held).rest = rest ∧
      (last.isNullish = false →
        (contactsLoop accountId accessToken (.success last :: rest) acc held).outcome
          = .returned (concat acc (contactsOf last))) ∧
      (last.isNullish = true →
        ∃ e, (contactsLoop accountId accessToken (.success last :: rest) acc held).outcome
          = .threw e) := by
  by_cases hn : last.isNullish = true
  · cases last with
    | undefined => simp [contactsLoop, JSVal.getProp, JSVal.isNullish]
    | null => simp [contactsLoop, JSVal.getProp, JSVal.isNullish]
    | _ => simp [JSVal.isNullish] at hn
  · have hn2 : last.isNullish = false := by simpa using hn
    simp [contactsLoop, getProp_contacts last hn2, getProp_continuation last hn2, h, hn2]

/-! ## The report after the loop -/

theorem fieldOf_eq (x : JSVal) (key : String) (v : JSVal) (h : x.getProp key = .ok v) :
    fieldOf x key = v := by
  simp [fieldOf, h]

theorem contactLine_ok (x : JSVal) (h : printable x = true) :
    ∃ ev, contactLine x = .ok ev := by
  simp [printable] at h
  obtain ⟨⟨⟨hn, h1⟩, h2⟩, h3⟩ := h
  obtain ⟨f, hf⟩ := getProp_of_not_nullish x "FirstName" hn
  obtain ⟨l, hl⟩ := getProp_of_not_nullish x "LastName" hn
  obtain ⟨m, hm⟩ := getProp_of_not_nullish x "Email" hn
  rw [fieldOf_eq x _ f hf] at h1
  rw [fieldOf_eq x _ l hl] at h2
  rw [fieldOf_eq x _ m hm] at h3
  exact ⟨.log [f, .str " ", l, .str " - ", m],
    by simp [contactLine, substitution, hf, hl, hm, h1, h2, h3]⟩

theorem contactLine_error (x : JSVal) (h : x.isNullish = true) :
    ∃ e, contactLine x = .error e := by
  cases x with
  | undefined => simp [contactLine, substitution, JSVal.getProp]
  | null => simp [contactLine, substitution, JSVal.getProp]
  | _ => simp [JSVal.isNullish] at h

theorem forEachLog_contacts_ok (xs : List JSVal) (h : ∀ x ∈ xs, printable x = true) :
    (forEachLog contactLine xs).2 = none := by
  induction xs with
  | nil => simp [forEachLog]
  | cons x xs ih =>
    obtain ⟨ev, hev⟩ := contactLine_ok x (h x (by simp))
    simp [forEachLog, hev, ih (fun y hy => h y (by simp [hy]))]

theorem forEachLog_contacts_error (xs : List JSVal) (h : ∃ x ∈ xs, x.isNullish = true) :
    ∃ e, (forEachLog contactLine xs).2 = some e := by
  induction xs with
  | nil => simp at h
  | cons x xs ih =>
    cases hline : contactLine x with
    | error e => exact ⟨e, by simp [forEachLog, hline]⟩
    | ok ev =>
      obtain ⟨y, hy, hyn⟩ := h
      have hy2 : y ∈ xs := by
        rcases List.mem_cons.mp hy with rfl | hmem
        · obtain ⟨e, he⟩ := contactLine_error y hyn
          rw [he] at hline
          cases hline
        · exact hmem
      obtain ⟨e, he⟩ := ih ⟨y, hy2, hyn⟩
      exact ⟨e, by simp [forEachLog, hline, he]⟩

theorem reportContacts_ok (all : List JSVal) (h : ∀ x ∈ all, printable x = true) :
    (reportContacts all).2 = .ok all := by
  have h2 := forEachLog_contacts_ok all h
  rcases hrun : forEachLog contactLine all with ⟨lines, stop⟩
  rw [hrun] at h2
  simp only at h2
  subst h2
  simp [reportContacts, hrun]

theorem reportContacts_error (all : List JSVal) (h : ∃ x ∈ all, x.isNullish = true) :
    ∃ e, (reportContacts all).2 = .error e := by
  obtain ⟨e, he⟩ := forEachLog_contacts_error all h
  rcases hrun : forEachLog contactLine all with ⟨lines, stop⟩
  rw [hrun] at he
  simp only at he
  subst he
  exact ⟨e, by simp [reportContacts, hrun]⟩

theorem concat_items (acc : List JSVal) (d : JSVal) (h : hasItems d = true) :
    concat acc (contactsOf d) = acc ++ itemsOf d := by
  unfold hasItems at h
  unfold itemsOf
  cases hc : contactsOf d <;> simp [hc] at h
  simp [concat]

theorem gathered_items (acc : List JSVal) (pages : List JSVal)
    (h : ∀ d ∈ pages, hasItems d = true) :
    gathered acc pages = acc ++ pages.flatMap itemsOf := by
  induction pages generalizing acc with
  | nil => simp [gathered]
  | cons d ds ih =>
    have := ih (concat acc (contactsOf d)) (fun x hx => h x (by simp [hx]))
    simp only [gathered, List.foldl_cons] at this ⊢
    rw [this, concat_items acc d (h d (by simp))]
    simp

theorem mem_concat_left (acc : List JSVal) (v x : JSVal) (h : x ∈ acc) : x ∈ concat acc v := by
  cases v <;> simp [concat, h]

theorem mem_gathered_left (acc pages : List JSVal) (x : JSVal) (h : x ∈ acc) :
    x ∈ gathered acc pages := by
  induction pages generalizing acc with
  | nil => simpa [gathered] using h
  | cons d ds ih =>
    have := ih (concat acc (contactsOf d)) (mem_concat_left acc _ x h)
    simpa [gathered] using this

/-- The whole call, from the behaviour of the loop. -/
theorem getWildApricotContacts_of_loop (apiKey accountId : String) (authBody accessToken : JSVal)
    (tail : List HttpResult) (hauth : authBody.getProp "access_token" = .ok accessToken) :
    (getWildApricotContacts apiKey accountId (.success authBody :: tail)).requests
        = tokenRequest ("APIKEY:" ++ apiKey) ::
          (contactsLoop accountId accessToken tail [] .null).requests ∧
      (getWildApricotContacts apiKey accountId (.success authBody :: tail)).rest
        = (contactsLoop accountId accessToken tail [] .null).rest ∧
      ((contactsLoop accountId accessToken tail [] .null).outcome = .pending →
        (getWildApricotContacts apiKey accountId (.success authBody :: tail)).outcome
          = .pending) ∧
      (∀ e, (contactsLoop accountId accessToken tail [] .null).outcome = .threw e →
        (getWildApricotContacts apiKey accountId (.success authBody :: tail)).outcome = .threw e ∧
        (getWildApricotContacts apiKey accountId (.success authBody :: tail)).console
          = [contactsErrorLog e]) ∧
      (∀ all, (contactsLoop accountId accessToken tail [] .null).outcome = .returned all →
        (∀ v, (reportContacts all).2 = .ok v →
          (getWildApricotContacts apiKey accountId (.success authBody :: tail)).outcome
            = .returned v) ∧
        (∀ e, (reportContacts all).2 = .error e →
          (getWildApricotContacts apiKey accountId (.success authBody :: tail)).outcome
            = .threw e)) := by
  refine ⟨?_, ?_, ?_, ?_, ?_⟩
  · simp only [getWildApricotContacts, accessTokenOf, hauth]
    cases (contactsLoop accountId accessToken tail [] .null).outcome with
    | pending => rfl
    | threw e => rfl
    | returned all => rcases hr : reportContacts all with ⟨lines, v | e⟩ <;> simp [hr]
  · simp only [getWildApricotContacts, accessTokenOf, hauth]
    cases (contactsLoop accountId accessToken tail [] .null).outcome with
    | pending => rfl
    | threw e => rfl
    | returned all => rcases hr : reportContacts all with ⟨lines, v | e⟩ <;> simp [hr]
  · intro h
    simp [getWildApricotContacts, accessTokenOf, hauth, h]
  · intro e h
    simp [getWildApricotContacts, accessTokenOf, hauth, h]
  · intro all h
    constructor
    · intro v hv
      rcases hr : reportContacts all with ⟨lines, w | e⟩
      · rw [hr] at hv; simp at hv
      · rw [hr] at hv
        simp at hv
        simp [getWildApricotContacts, accessTokenOf, hauth, h, hr, hv]
    · intro e he
      rcases hr : reportContacts all with ⟨lines, w | v⟩
      · rw [hr] at he
        simp at he
        simp [getWildApricotContacts, accessTokenOf, hauth, h, hr, he]
      · rw [hr] at he; simp at he

/-- The requests and the state of the loop after it consumed `pre`, bodies
with truthy continuation tokens, and then a body `last` whose token is not
truthy. -/
theorem contactsLoop_complete (accountId : String) (accessToken : JSVal) (pre : List JSVal)
    (last : JSVal) (rest : List HttpResult)
    (hpre : ∀ d ∈ pre, (continuationOf d).truthy = true)
    (hlast : (continuationOf last).truthy = false) :
    (contactsLoop accountId accessToken ((pre ++ [last]).map .success ++ rest) [] .null).requests
        = (JSVal.null :: pre.map continuationOf).map (contactsRequest accountId accessToken) ∧
      (contactsLoop accountId accessToken ((pre ++ [last]).map .success ++ rest) [] .null).rest
        = rest ∧
      (last.isNullish = false →
        (contactsLoop accountId accessToken ((pre ++ [last]).map .success ++ rest) [] .null).outcome
          = .returned (gathered [] (pre ++ [last]))) ∧
      (last.isNullish = true →
        ∃ e, (contactsLoop accountId accessToken ((pre ++ [last]).map .success ++ rest)
          [] .null).outcome = .threw e) := by
  have hsplit : (pre ++ [last]).map HttpResult.success ++ rest
      = pre.map .success ++ (.success last :: rest) := by simp
  obtain ⟨h1, h2, h3, h4⟩ := contactsLoop_last accountId accessToken last rest
    (gathered [] pre) (heldAfter .null pre) hlast
  rw [hsplit, contactsLoop_pages accountId accessToken pre _ [] .null hpre]
  refine ⟨?_, h2, ?_, h4⟩
  · simp only [h1]
    rw [← List.map_singleton, ← List.map_append, heldAt_append_heldAfter]
  · intro hn
    simp only [h3 hn, gathered_append]
    simp [gathered]

/-! ## getWildApricotContacts -/

/-- C1, as stated, fails: after a successful token exchange, the single page
whose item array holds the one item `null` and which carries no continuation
token makes the call raise a TypeError (the report after the loop reads
`contact.FirstName` on the item) instead of returning the one-item list; and
so does the single page whose one item has a `FirstName` that cannot be
converted to a string (an object with a field named `toString`). -/
theorem contacts_null_item_counterexample :
    itemsOf (.obj [("Contacts", .arr [.null]), ("ResultContinuation", .null)]) = [.null] ∧
      (continuationOf (.obj [("Contacts", .arr [.null]),
        ("ResultContinuation", .null)])).truthy = false ∧
      (getWildApricotContacts "key" "ID1"
        [.success (.obj [("access_token", .str "T1")]),
         .success (.obj [("Contacts", .arr [.null]), ("ResultContinuation", .null)])]).outcome
        = .threw (typeError "null" "FirstName") ∧
      (typeError "null" "FirstName").message
        = "Cannot read properties of null (reading \x27FirstName\x27)" ∧
      (getWildApricotContacts "key" "ID1"
        [.success (.obj [("access_token", .str "T1")]),
         .success (.obj [("Contacts", .arr [.obj [("FirstName", .obj [("toString", .num 1)])]]),
           ("ResultContinuation", .null)])]).outcome
        = .threw cannotConvert :=
  ⟨rfl, rfl, rfl, by decide, rfl⟩

/-- C1, amended: after a token exchange that gave an access token which can be
converted to a string (what the template of the Authorization header needs;
the request record keeps the token as it is), for pages `pre ++ [last]` served in order, every page
of `pre` carrying a truthy continuation token and `last` carrying none, every
page holding an item array, and every item being printable (it is neither
`null` nor `undefined`, and its `FirstName`, `LastName` and `Email` can be
converted to strings), the call returns the items of the pages concatenated in
page order. -/
theorem contacts_aggregate (apiKey accountId : String) (authBody accessToken : JSVal)
    (pre : List JSVal) (last : JSVal) (rest : List HttpResult)
    (hauth : authBody.getProp "access_token" = .ok accessToken)
    (htoken : accessToken.renders = true)
    (hpre : ∀ d ∈ pre, (continuationOf d).truthy = true)
    (hlast : (continuationOf last).truthy = false)
    (hitems : ∀ d ∈ pre ++ [last], hasItems d = true)
    (hitem : ∀ d ∈ pre ++ [last], ∀ x ∈ itemsOf d, printable x = true) :
    (getWildApricotContacts apiKey accountId
        (.success authBody :: ((pre ++ [last]).map .success ++ rest))).outcome
      = .returned ((pre ++ [last]).flatMap itemsOf) := by
  have hn : last.isNullish = false := by
    have hl := hitems last (by simp)
    cases last <;> first | rfl | simp [hasItems, contactsOf, JSVal.getProp] at hl
  obtain ⟨_, _, hret, _⟩ := contactsLoop_complete accountId accessToken pre last rest hpre hlast
  have hloop := hret hn
  rw [gathered_items [] (pre ++ [last]) hitems, List.nil_append] at hloop
  have hall : ∀ x ∈ (pre ++ [last]).flatMap itemsOf, printable x = true := by
    intro x hx
    obtain ⟨d, hd, hxd⟩ := List.mem_flatMap.mp hx
    exact hitem d hd x hxd
  exact ((getWildApricotContacts_of_loop apiKey accountId authBody accessToken _ hauth).2.2.2.2
    _ hloop).1 _ (reportContacts_ok _ hall)

/-- Witness of C1 amended: the two pages of the end-to-end scenario, the first
with the continuation token `CT1`. -/
theorem contacts_aggregate_witness :
    (getWildApricotContacts "key" "ID1"
        (.success (.obj [("access_token", .str "T1")]) ::
          (([scenarioPageA] ++ [scenarioPageB]).map .success ++ []))).outcome
      = .returned (([scenarioPageA] ++ [scenarioPageB]).flatMap itemsOf) :=
  contacts_aggregate "key" "ID1" (.obj [("access_token", .str "T1")]) (.str "T1")
    [scenarioPageA] scenarioPageB [] rfl rfl
    (by intro d hd; simp at hd; subst hd; rfl)
    rfl
    (by intro d hd; simp at hd; rcases hd with rfl | rfl <;> rfl)
    (by
      intro d hd x hx
      simp at hd
      rcases hd with rfl | rfl <;>
        simp [itemsOf, contactsOf, JSVal.getProp, List.lookup, scenarioPageA,
          scenarioPageB] at hx <;>
        subst hx <;> rfl)

/-- C2: after a successful token exchange, for pages `pre ++ [last]` served in
order, every page of `pre` carrying a truthy continuation token and `last`
carrying none, whatever `Contacts` holds on any page, the call issues the token
request and then exactly one contacts GET per page: the first holds no
continuation token, so it has no `$continuationToken` parameter, and the one
after page `d` holds the token of `d` as its `$continuationToken` parameter.
Responses after `last` are not consumed. -/
theorem contacts_requests (apiKey accountId : String) (authBody accessToken : JSVal)
    (pre : List JSVal) (last : JSVal) (rest : List HttpResult)
    (hauth : authBody.getProp "access_token" = .ok accessToken)
    (hpre : ∀ d ∈ pre, (continuationOf d).truthy = true)
    (hlast : (continuationOf last).truthy = false) :
    (getWildApricotContacts apiKey accountId
        (.success authBody :: ((pre ++ [last]).map .success ++ rest))).requests
        = tokenRequest ("APIKEY:" ++ apiKey) ::
          (JSVal.null :: pre.map continuationOf).map (contactsRequest accountId accessToken) ∧
      (getWildApricotContacts apiKey accountId
        (.success authBody :: ((pre ++ [last]).map .success ++ rest))).requests.length
        = (pre ++ [last]).length + 1 ∧
      (contactsRequest accountId accessToken .null).params.lookup "$continuationToken" = none ∧
      (∀ d ∈ pre, (contactsRequest accountId accessToken (continuationOf d)).params.lookup
        "$continuationToken" = some (continuationOf d)) ∧
      (getWildApricotContacts apiKey accountId
        (.success authBody :: ((pre ++ [last]).map .success ++ rest))).rest = rest := by
  obtain ⟨hreq, hrest, _, _⟩ :=
    contactsLoop_complete accountId accessToken pre last rest hpre hlast
  obtain ⟨h1, h2, _⟩ := getWildApricotContacts_of_loop apiKey accountId authBody accessToken
    ((pre ++ [last]).map .success ++ rest) hauth
  refine ⟨?_, ?_, ?_, ?_, ?_⟩
  · rw [h1, hreq]
  · rw [h1, hreq]; simp
  · simp [contactsRequest, JSVal.truthy, List.lookup]
  · intro d hd
    simp [contactsRequest, hpre d hd, List.lookup]
  · rw [h2, hrest]

/-- Witness of C2: a first page without `Contacts` that carries the token
`CT1`, then page B of the scenario. -/
theorem contacts_requests_witness :
    (getWildApricotContacts "key" "ID1"
        (.success (.obj [("access_token", .str "T1")]) ::
          (([JSVal.obj [("ResultContinuation", .str "CT1")]] ++ [scenarioPageB]).map .success
            ++ []))).requests
      = [tokenRequest "APIKEY:key", contactsRequest "ID1" (.str "T1") .null,
          contactsRequest "ID1" (.str "T1") (.str "CT1")] :=
  (contacts_requests "key" "ID1" (.obj [("access_token", .str "T1")]) (.str "T1")
    [.obj [("ResultContinuation", .str "CT1")]] scenarioPageB [] rfl
    (by intro d hd; simp at hd; subst hd; rfl) rfl).1

/-- C7: after a successful token exchange, when the pages `pre` succeed with
truthy continuation tokens and the next contacts GET raises `e`, the call
raises `e` and returns no list; the requests issued are the token request and
one contacts GET per page of `pre` plus the failed one, which is the last; the
responses after the failure are not consumed. -/
theorem contacts_page_failure (apiKey accountId : String) (authBody accessToken : JSVal)
    (pre : List JSVal) (e : JSError) (rest : List HttpResult)
    (hauth : authBody.getProp "access_token" = .ok accessToken)
    (hpre : ∀ d ∈ pre, (continuationOf d).truthy = true) :
    (getWildApricotContacts apiKey accountId
        (.success authBody :: (pre.map .success ++ .failure e :: rest))).outcome = .threw e ∧
      (∀ l, (getWildApricotContacts apiKey accountId
        (.success authBody :: (pre.map .success ++ .failure e :: rest))).outcome
          ≠ .returned l) ∧
      (getWildApricotContacts apiKey accountId
        (.success authBody :: (pre.map .success ++ .failure e :: rest))).requests
        = tokenRequest ("APIKEY:" ++ apiKey) ::
          (JSVal.null :: pre.map continuationOf).map (contactsRequest accountId accessToken) ∧
      (getWildApricotContacts apiKey accountId
        (.success authBody :: (pre.map .success ++ .failure e :: rest))).rest = rest ∧
      (getWildApricotContacts apiKey accountId
        (.success authBody :: (pre.map .success ++ .failure e :: rest))).console
        = [contactsErrorLog e] := by
  have hloop := contactsLoop_pages accountId accessToken pre (.failure e :: rest) [] .null hpre
  obtain ⟨h1, h2, _, h4, _⟩ := getWildApricotContacts_of_loop apiKey accountId authBody
    accessToken (pre.map .success ++ .failure e :: rest) hauth
  have hout : (contactsLoop accountId accessToken (pre.map .success ++ .failure e :: rest)
      [] .null).outcome = .threw e := by
    rw [hloop]; simp [contactsLoop]
  have hthrew := (h4 e hout).1
  refine ⟨hthrew, ?_, ?_, ?_, (h4 e hout).2⟩
  · intro l hl
    rw [hthrew] at hl
    cases hl
  · rw [h1, hloop]
    simp only [contactsLoop]
    rw [← List.map_singleton, ← List.map_append, heldAt_append_heldAfter]
  · rw [h2, hloop]; simp [contactsLoop]

/-- Witness of C7: page A of the scenario, then a transport failure, then a
page that is never asked for. -/
theorem contacts_page_failure_witness :
    (getWildApricotContacts "key" "ID1"
        (.success (.obj [("access_token", .str "T1")]) ::
          ([scenarioPageA].map .success ++
            .failure ⟨"Network Error", none⟩ :: [.success scenarioPageB]))).outcome
        = .threw ⟨"Network Error", none⟩ ∧
      (getWildApricotContacts "key" "ID1"
        (.success (.obj [("access_token", .str "T1")]) ::
          ([scenarioPageA].map .success ++
            .failure ⟨"Network Error", none⟩ :: [.success scenarioPageB]))).rest
        = [.success scenarioPageB] :=
  ⟨(contacts_page_failure "key" "ID1" (.obj [("access_token", .str "T1")]) (.str "T1")
      [scenarioPageA] ⟨"Network Error", none⟩ [.success scenarioPageB] rfl
      (by intro d hd; simp at hd; subst hd; rfl)).1,
    (contacts_page_failure "key" "ID1" (.obj [("access_token", .str "T1")]) (.str "T1")
      [scenarioPageA] ⟨"Network Error", none⟩ [.success scenarioPageB] rfl
      (by intro d hd; simp at hd; subst hd; rfl)).2.2.2.1⟩

/-- C10: after a successful token exchange, when the `n` pages served all carry
a truthy continuation token, the call has not completed: it issued the token
request and `n + 1` contacts GETs, the last one holding the token of the `n`-th
page, and is awaiting its response.  This holds for every `n`, so no number of
such pages makes the loop end. -/
theorem contacts_unbounded (apiKey accountId : String) (authBody accessToken : JSVal)
    (pages : List JSVal)
    (hauth : authBody.getProp "access_token" = .ok accessToken)
    (hpages : ∀ d ∈ pages, (continuationOf d).truthy = true) :
    (getWildApricotContacts apiKey accountId
        (.success authBody :: pages.map .success)).outcome = .pending ∧
      (getWildApricotContacts apiKey accountId
        (.success authBody :: pages.map .success)).requests
        = tokenRequest ("APIKEY:" ++ apiKey) ::
          (JSVal.null :: pages.map continuationOf).map (contactsRequest accountId accessToken) ∧
      (getWildApricotContacts apiKey accountId
        (.success authBody :: pages.map .success)).requests.length = 1 + (pages.length + 1) := by
  have hloop := contactsLoop_pages accountId accessToken pages [] [] .null hpages
  rw [List.append_nil] at hloop
  obtain ⟨h1, _, h3, _⟩ := getWildApricotContacts_of_loop apiKey accountId authBody
    accessToken (pages.map .success) hauth
  have hreq : (contactsLoop accountId accessToken (pages.map .success) [] .null).requests
      = (JSVal.null :: pages.map continuationOf).map (contactsRequest accountId accessToken) := by
    rw [hloop]
    simp only [contactsLoop]
    rw [← List.map_singleton, ← List.map_append, heldAt_append_heldAfter]
  refine ⟨h3 (by rw [hloop]; simp [contactsLoop]), ?_, ?_⟩
  · rw [h1, hreq]
  · rw [h1, hreq]; simp; omega

/-- Witness of C10: page A of the scenario served three times. -/
theorem contacts_unbounded_witness :
    (getWildApricotContacts "key" "ID1"
        (.success (.obj [("access_token", .str "T1")]) ::
          [scenarioPageA, scenarioPageA, scenarioPageA].map .success)).outcome = .pending ∧
      (getWildApricotContacts "key" "ID1"
        (.success (.obj [("access_token", .str "T1")]) ::
          [scenarioPageA, scenarioPageA, scenarioPageA].map .success)).requests.length
        = 1 + ([scenarioPageA, scenarioPageA, scenarioPageA].length + 1) :=
  ⟨(contacts_unbounded "key" "ID1" (.obj [("access_token", .str "T1")]) (.str "T1")
      [scenarioPageA, scenarioPageA, scenarioPageA] rfl
      (by intro d hd; simp at hd; subst hd; rfl)).1,
    (contacts_unbounded "key" "ID1" (.obj [("access_token", .str "T1")]) (.str "T1")
      [scenarioPageA, scenarioPageA, scenarioPageA] rfl
      (by intro d hd; simp at hd; subst hd; rfl)).2.2⟩

/-- A nullish element of the accumulator stays in every list the loop
returns. -/
theorem contactsLoop_keeps_nullish (accountId : String) (accessToken : JSVal)
    (script : List HttpResult) (acc : List JSVal) (held : JSVal) (l : List JSVal)
    (hacc : ∃ x ∈ acc, x.isNullish = true)
    (hret : (contactsLoop accountId accessToken script acc held).outcome = .returned l) :
    ∃ x ∈ l, x.isNullish = true := by
  induction script generalizing acc held with
  | nil => simp [contactsLoop] at hret
  | cons r rest ih =>
    cases r with
    | failure e => simp [contactsLoop] at hret
    | success d =>
      obtain ⟨x, hx, hxn⟩ := hacc
      by_cases hn : d.isNullish = true
      · cases d with
        | undefined => simp [contactsLoop, JSVal.getProp] at hret
        | null => simp [contactsLoop, JSVal.getProp] at hret
        | _ => simp [JSVal.isNullish] at hn
      · have hn2 : d.isNullish = false := by simpa using hn
        by_cases ht : (continuationOf d).truthy = true
        · rw [contactsLoop_continue accountId accessToken d rest acc held ht] at hret
          exact ih _ _ ⟨x, mem_concat_left acc _ x hx, hxn⟩ hret
        · have ht2 : (continuationOf d).truthy = false := by simpa using ht
          have h3 := (contactsLoop_last accountId accessToken d rest acc held ht2).2.2.1 hn2
          rw [h3] at hret
          cases hret
          exact ⟨x, mem_concat_left acc _ x hx, hxn⟩

theorem nullish_mem_gathered (acc pages : List JSVal) (d : JSVal) (hd : d ∈ pages)
    (hlack : lacksContacts d = true) : ∃ x ∈ gathered acc pages, x.isNullish = true := by
  induction pages generalizing acc with
  | nil => simp at hd
  | cons p ps ih =>
    rcases List.mem_cons.mp hd with rfl | hmem
    · have hmem : contactsOf d ∈ concat acc (contactsOf d) := by
        unfold lacksContacts at hlack
        cases hc : contactsOf d <;> simp [hc, JSVal.isNullish] at hlack <;> simp [concat]
      have := mem_gathered_left (concat acc (contactsOf d)) ps _ hmem
      exact ⟨contactsOf d, by simpa [gathered] using this, hlack⟩
    · obtain ⟨x, hx, hxn⟩ := ih (concat acc (contactsOf p)) hmem
      exact ⟨x, by simpa [gathered] using hx, hxn⟩

/-- C8, as stated, fails: after a successful token exchange, the single page
whose `Contacts` is the number 5, not an item collection, and which carries no
continuation token makes the call return the list holding that value. -/
theorem contacts_wrong_collection_counterexample :
    hasItems (.obj [("Contacts", .num 5), ("ResultContinuation", .null)]) = false ∧
      (getWildApricotContacts "key" "ID1"
        [.success (.obj [("access_token", .str "T1")]),
         .success (.obj [("Contacts", .num 5), ("ResultContinuation", .null)])]).outcome
        = .returned [.num 5] :=
  ⟨rfl, rfl⟩

/-- C8, amended: a page that arrives with no item collection at all (the body
is `null` or `undefined`, or its `Contacts` is absent or `null`) makes the call
never return a list.  After a successful token exchange and pages `pre` with
truthy continuation tokens, such a page `bad` leaves no returned list whatever
is served after it; and when the pagination completes (pages `pre ++ [last]`,
`last` carrying no continuation token, one of them such a page) the call raises
an error. -/
theorem contacts_missing_collection (apiKey accountId : String) (authBody accessToken : JSVal)
    (pre : List JSVal)
    (hauth : authBody.getProp "access_token" = .ok accessToken)
    (hpre : ∀ d ∈ pre, (continuationOf d).truthy = true) :
    (∀ (bad : JSVal) (tail : List HttpResult), lacksContacts bad = true →
      ∀ l, (getWildApricotContacts apiKey accountId
        (.success authBody :: (pre.map .success ++ .success bad :: tail))).outcome
          ≠ .returned l) ∧
    (∀ (last : JSVal) (rest : List HttpResult), (continuationOf last).truthy = false →
      (∃ d ∈ pre ++ [last], lacksContacts d = true) →
      ∃ e, (getWildApricotContacts apiKey accountId
        (.success authBody :: ((pre ++ [last]).map .success ++ rest))).outcome = .threw e) := by
  constructor
  · intro bad tail hbad l hl
    obtain ⟨_, _, h3, h4, h5⟩ := getWildApricotContacts_of_loop apiKey accountId authBody
      accessToken (pre.map .success ++ .success bad :: tail) hauth
    have hsplit : pre.map HttpResult.success ++ .success bad :: tail
        = (pre ++ [bad]).map .success ++ tail := by simp
    cases hout : (contactsLoop accountId accessToken
        (pre.map .success ++ .success bad :: tail) [] .null).outcome with
    | pending => rw [h3 hout] at hl; cases hl
    | threw e => rw [(h4 e hout).1] at hl; cases hl
    | returned all =>
      have hnull : ∃ x ∈ all, x.isNullish = true := by
        by_cases ht : (continuationOf bad).truthy = true
        · have hall : ∀ d ∈ pre ++ [bad], (continuationOf d).truthy = true := by
            intro d hd
            rcases List.mem_append.mp hd with h | h
            · exact hpre d h
            · simp at h; subst h; exact ht
          rw [hsplit, contactsLoop_pages accountId accessToken (pre ++ [bad]) tail [] .null
            hall] at hout
          exact contactsLoop_keeps_nullish accountId accessToken tail _ _ all
            (nullish_mem_gathered [] (pre ++ [bad]) bad (by simp) hbad) hout
        · have ht2 : (continuationOf bad).truthy = false := by simpa using ht
          obtain ⟨_, _, hret, hthrow⟩ :=
            contactsLoop_complete accountId accessToken pre bad tail hpre ht2
          by_cases hn : bad.isNullish = true
          · obtain ⟨e, he⟩ := hthrow hn
            rw [hsplit, he] at hout
            cases hout
          · have hn2 : bad.isNullish = false := by simpa using hn
            rw [hsplit, hret hn2] at hout
            cases hout
            exact nullish_mem_gathered [] (pre ++ [bad]) bad (by simp) hbad
      obtain ⟨e, he⟩ := reportContacts_error all hnull
      rw [(h5 all hout).2 e he] at hl
      cases hl
  · intro last rest hlast hbad
    obtain ⟨_, _, _, h4, h5⟩ := getWildApricotContacts_of_loop apiKey accountId authBody
      accessToken ((pre ++ [last]).map .success ++ rest) hauth
    obtain ⟨_, _, hret, hthrow⟩ :=
      contactsLoop_complete accountId accessToken pre last rest hpre hlast
    by_cases hn : last.isNullish = true
    · obtain ⟨e, he⟩ := hthrow hn
      exact ⟨e, (h4 e he).1⟩
    · have hn2 : last.isNullish = false := by simpa using hn
      obtain ⟨d, hd, hdc⟩ := hbad
      obtain ⟨e, he⟩ := reportContacts_error (gathered [] (pre ++ [last]))
        (nullish_mem_gathered [] (pre ++ [last]) d hd hdc)
      exact ⟨e, (h5 _ (hret hn2)).2 e he⟩

/-- Witness of C8 amended: page A of the scenario, then a page that has no
`Contacts` and no continuation token; the call raises and does not return the
list ending in `undefined`. -/
theorem contacts_missing_collection_witness :
    (∀ l, (getWildApricotContacts "key" "ID1"
        (.success (.obj [("access_token", .str "T1")]) ::
          ([scenarioPageA].map .success ++
            .success (.obj [("ResultContinuation", .null)]) :: []))).outcome
        ≠ .returned l) ∧
      ∃ e, (getWildApricotContacts "key" "ID1"
        (.success (.obj [("access_token", .str "T1")]) ::
          (([scenarioPageA] ++ [JSVal.obj [("ResultContinuation", .null)]]).map .success
            ++ []))).outcome = .threw e :=
  ⟨(contacts_missing_collection "key" "ID1" (.obj [("access_token", .str "T1")]) (.str "T1")
      [scenarioPageA] rfl (by intro d hd; simp at hd; subst hd; rfl)).1
      (.obj [("ResultContinuation", .null)]) [] rfl,
    (contacts_missing_collection "key" "ID1" (.obj [("access_token", .str "T1")]) (.str "T1")
      [scenarioPageA] rfl (by intro d hd; simp at hd; subst hd; rfl)).2
      (.obj [("ResultContinuation", .null)]) [] rfl
      ⟨.obj [("ResultContinuation", .null)], by simp, rfl⟩⟩

end WildApricot
